import Mathlib

/- Shallow embedding of the parts of pyrobolearn exercised by the claims:
   the velocity-level AngularMomentumTask, the SelfCollisionAvoidanceConstraint
   stub, the RL metrics (AverageReturnMetric, LossMetric), and the
   convert_numpy decorator. Python floats are modelled as exact rationals,
   Python strings as lists of characters or Lean strings, mutation as explicit
   state passing, and raised exceptions as Option/Except values. -/

/-- Python exception kinds raised by the embedded code. -/
inductive PyErr where
  | typeError
  | valueError
  | nameError (n : String)
deriving DecidableEq

/-- A Python object handed to a reference setter: `None`, an array-like
(one of `np.ndarray`, `list`, `tuple`, holding its numeric entries), or any
other non-array-like object. -/
inductive PyObj where
  | pyNone
  | pyArray (xs : List ℚ)
  | pyOther
deriving DecidableEq

/-- The slice of the external ModelInterface contract that the
angular-momentum task consumes: the centroidal momentum matrix of the robot's
current configuration, a list of rows (spec section 3: the interface is a pure
read projection of the robot state at the current tick). -/
structure ModelInterface where
  centroidal_momentum_matrix : List (List ℚ)
deriving DecidableEq

/-- `model.get_centroidal_momentum_matrix()`: returns the centroidal momentum
matrix for the current configuration. -/
def ModelInterface.get_centroidal_momentum_matrix (m : ModelInterface) :
    List (List ℚ) :=
  m.centroidal_momentum_matrix

/-- Mutable state of `AngularMomentumTask`
(src/pyrobolearn/priorities/tasks/velocity/angular_momentum.py): the stored
desired centroidal angular momentum `_des_k`, and the `(A, b)` pair kept in
`_A` and `_b`. -/
structure AngularMomentumTask where
  des_k : List ℚ
  A : List (List ℚ)
  b : List ℚ
deriving DecidableEq

/-- The `desired_angular_momentum` property setter (angular_momentum.py lines
166-178): `None` is replaced by `np.zeros(3)`; a non-array-like raises
`TypeError`; an array-like of length other than 3 raises `ValueError`;
otherwise `_des_k` is assigned. The result is the pair (task state after the
call, raised exception if any); both raises happen before the assignment, so
on an exception the state comes back unchanged. -/
def AngularMomentumTask.set_desired_angular_momentum
    (t : AngularMomentumTask) (k_d : PyObj) : AngularMomentumTask × Option PyErr :=
  let k_d := if k_d = PyObj.pyNone then PyObj.pyArray [0, 0, 0] else k_d
  match k_d with
  | PyObj.pyArray xs =>
      if xs.length ≠ 3 then (t, Option.some PyErr.valueError)
      else ({ t with des_k := xs }, Option.none)
  | _ => (t, Option.some PyErr.typeError)

/-- `set_desired_references` (angular_momentum.py lines 194-200): assigns
through the `x_desired` property, which delegates to the
`desired_angular_momentum` setter. -/
def AngularMomentumTask.set_desired_references
    (t : AngularMomentumTask) (x_des : PyObj) : AngularMomentumTask × Option PyErr :=
  t.set_desired_angular_momentum x_des

/-- `get_desired_references` (angular_momentum.py lines 202-208): returns
`x_desired`, i.e. the stored `_des_k`. -/
def AngularMomentumTask.get_desired_references (t : AngularMomentumTask) :
    List ℚ :=
  t.des_k

/-- `_update` (angular_momentum.py lines 210-215): `_A` is assigned the first
three rows of the centroidal momentum matrix fetched from the model interface
on this call (`self.model.get_centroidal_momentum_matrix()[:3]`), and `_b` is
assigned the stored `_des_k`. -/
def AngularMomentumTask._update (model : ModelInterface)
    (t : AngularMomentumTask) : AngularMomentumTask :=
  { t with
      A := model.get_centroidal_momentum_matrix.take 3
      b := t.des_k }

/-- Modelled from the spec: the base `Task` class is not under src/; per spec
section 4.1 its `update()` "recomputes `(A, b)` from current model state; no
return value; side effect is internal state mutation only", the concrete
computation being the task's `_update`. -/
def AngularMomentumTask.update (model : ModelInterface)
    (t : AngularMomentumTask) : AngularMomentumTask :=
  AngularMomentumTask._update model t

/-- `AngularMomentumTask.__init__` (angular_momentum.py lines 138-155): after
the base constructor, it assigns the `desired_angular_momentum` property
(running its setter on the given argument, default `None`), then calls
`update()`. Before that first assignment the task carries no
`_des_k`/`_A`/`_b`, modelled by empty lists. -/
def AngularMomentumTask.init (model : ModelInterface)
    (desired_angular_momentum : PyObj) : Except PyErr AngularMomentumTask :=
  let t0 : AngularMomentumTask := { des_k := [], A := [], b := [] }
  match AngularMomentumTask.set_desired_angular_momentum t0 desired_angular_momentum with
  | (t1, Option.none) => Except.ok (AngularMomentumTask.update model t1)
  | (_, Option.some e) => Except.error e

/-- State of `(A_ineq, b_ineq)` of a velocity constraint (spec section 3,
Constraint attributes). -/
structure ConstraintState where
  A_ineq : List (List ℚ)
  b_ineq : List ℚ
deriving DecidableEq

/-- The names of the methods defined in the class body of
`SelfCollisionAvoidanceConstraint`
(src/pyrobolearn/priorities/constraints/velocity/self_collision_avoidance.py,
lines 27-34): the body defines only `__init__`, which forwards `model` to the
base constructor; there is no `update`, no `_update`, and no link-distance
computation anywhere in the class. -/
def selfCollisionAvoidanceConstraintMethods : List String := [r"__init__"]

/-- Modelled from the spec: the abstract `Constraint` base class is not under
src/. Per spec sections 4.3 and 5, `update()` recomputes a state-dependent
constraint's matrices through the concrete class's own update computation.
`SelfCollisionAvoidanceConstraint` defines no update computation at all (see
`selfCollisionAvoidanceConstraintMethods`), so a call performs no model query
and leaves `(A_ineq, b_ineq)` exactly as they were. The second component is
the log of link-pair-distance queries issued to the model during the call. -/
def SelfCollisionAvoidanceConstraint.update (s : ConstraintState) :
    ConstraintState × List String :=
  (s, [])

/-- State of `AverageReturnMetric` (rl_metrics.py lines 40-128): the stored
discount factor `_gamma`, the rollout counts `_num_rollouts` and `_num_steps`,
and the `returns` history. The `task` dependency is passed to
`end_episode_update` explicitly as the `run` oracle. -/
structure AverageReturnMetric where
  gamma : ℚ
  num_rollouts : Nat
  num_steps : Nat
  returns : List ℚ
deriving DecidableEq

/-- The `gamma` property setter (rl_metrics.py lines 76-84): a value above 1
becomes 1, a value below 0 becomes 0, anything else is stored as given. -/
def AverageReturnMetric.set_gamma (gamma : ℚ) : ℚ :=
  if gamma > 1 then 1
  else if gamma < 0 then 0
  else gamma

/-- `AverageReturnMetric.__init__` (rl_metrics.py lines 53-65): stores `gamma`
through its setter, an empty `returns` history, and the rollout counts. -/
def AverageReturnMetric.init (gamma : ℚ) (num_rollouts num_steps : Nat) :
    AverageReturnMetric :=
  { gamma := AverageReturnMetric.set_gamma gamma
    num_rollouts := num_rollouts
    num_steps := num_steps
    returns := [] }

/-- The `for _ in range(num_rollouts)` loop of `_end_episode_update`
(rl_metrics.py lines 109-112): iteration `i` calls `task.run(num_steps=s)`,
modelled by the oracle value `run i s` (the first argument models the task
advancing internally from call to call). Returns the accumulated `rewards`
list together with the trace of `num_steps` arguments passed to `run`. -/
def rolloutLoop (run : Nat → Nat → ℚ) (s : Nat) : Nat → List ℚ × List Nat
  | 0 => ([], [])
  | n + 1 =>
      let p := rolloutLoop run s n
      (p.1 ++ [run n s], p.2 ++ [s])

/-- `np.asarray(rewards).mean()` (rl_metrics.py line 114) over exact
rationals; it is only ever applied to the nonempty reward lists produced by a
loop that ran at least once. -/
def listMean (xs : List ℚ) : ℚ := xs.sum / xs.length

/-- `_end_episode_update` (rl_metrics.py lines 107-118): runs `_num_rollouts`
rollouts of `_num_steps` each through `task.run`, takes the mean of the
collected rewards, and appends that single value to `returns`. The second
component is the trace of `num_steps` arguments passed to `task.run`. -/
def AverageReturnMetric.end_episode_update (run : Nat → Nat → ℚ)
    (m : AverageReturnMetric) : AverageReturnMetric × List Nat :=
  let p := rolloutLoop run m.num_steps m.num_rollouts
  ({ m with returns := m.returns ++ [listMean p.1] }, p.2)

/-- Python `str.lower()` over a list of characters. -/
def pyLower (s : List Char) : List Char := s.map Char.toLower

/-- The string `'episode'`. -/
def wrtEpisode : List Char := ['e', 'p', 'i', 's', 'o', 'd', 'e']

/-- The string `'epoch'`. -/
def wrtEpoch : List Char := ['e', 'p', 'o', 'c', 'h']

/-- The string `'iteration'`. -/
def wrtIteration : List Char := ['i', 't', 'e', 'r', 'a', 't', 'i', 'o', 'n']

/-- The `wrt` property setter of `LossMetric` (rl_metrics.py lines 204-217):
`None` is stored as `'iteration'`; otherwise the string is lower-cased, and if
its first-7 slice (`wrt[:7]`) equals `'episode'` it is stored as `'episode'`,
else if its first-5 slice (`wrt[:5]`) equals `'epoch'` it is stored as
`'epoch'`, else it is stored as `'iteration'`. -/
def LossMetric.set_wrt (wrt : Option (List Char)) : List Char :=
  match wrt with
  | Option.none => wrtIteration
  | Option.some s =>
      let s := pyLower s
      if s.take 7 = wrtEpisode then wrtEpisode
      else if s.take 5 = wrtEpoch then wrtEpoch
      else wrtIteration

/-- The name `np`. -/
def npName : String := "np"

/-- The module-level names bound in src/pyrobolearn/utils/decorator.py: the
imports `sys`, `numpy` and `torch` (numpy is imported WITHOUT the `np`
alias), the dunder metadata assignments, and the two function definitions. -/
def decoratorModuleGlobals : List String :=
  [r"sys", r"numpy", r"torch", r"__author__", r"__copyright__", r"__credits__",
   r"__license__", r"__version__", r"__maintainer__", r"__email__",
   r"__status__", r"convert_numpy", r"keyboard_interrupt"]

/-- Python name resolution for a global name used inside `wrapper`: the
enclosing scopes bind only `f`, `self`, `x` and `to_numpy`, so a name such as
`np` is looked up in the module globals and then in the builtins (where `np`
is likewise absent); an unbound name raises `NameError` at use time. -/
def resolveDecoratorGlobal (n : String) : Option String :=
  if n ∈ decoratorModuleGlobals then Option.some n else Option.none

/-- `wrapper` produced by `convert_numpy` (decorator.py lines 23-36). Its
first statement evaluates `isinstance(x, np.ndarray)`, whose second argument
`np.ndarray` requires resolving the name `np` before anything else runs; only
if that resolution succeeded would the body convert `x`, call the wrapped
function `f`, and convert back as requested. The module never binds `np`, so
the positive branch is unreachable; it is modelled as the call to `f` followed
by the requested return. -/
def convert_numpy_wrapper (f : PyObj → PyObj) (x : PyObj) (to_numpy : Bool) :
    Except PyErr PyObj :=
  match resolveDecoratorGlobal npName with
  | Option.none => Except.error (PyErr.nameError npName)
  | Option.some _ =>
      let y := f x
      if to_numpy then Except.ok y else Except.ok y

/- Helper lemmas. -/

/-- A prefix of a list is recovered by taking its length. -/
lemma take_length_eq_of_pref {p l : List Char} (h : p <+: l) :
    l.take p.length = p := by
  obtain ⟨t, rfl⟩ := h
  exact List.take_left ..

/-- Taking `n` elements and landing on a length-`n` list exhibits a prefix. -/
lemma pref_of_take_eq {p l : List Char} {n : Nat} (h : l.take n = p) :
    p <+: l := by
  subst h
  exact List.take_prefix n l

/-- The trace of a rollout loop is `num_rollouts` copies of `num_steps`. -/
lemma rolloutLoop_trace (run : Nat → Nat → ℚ) (s : Nat) :
    ∀ n, (rolloutLoop run s n).2 = List.replicate n s := by
  intro n
  induction n with
  | zero => simp [rolloutLoop]
  | succ k ih =>
      simp [rolloutLoop, ih, List.replicate_succ' ..]

/-- The rollout loop collects one reward per iteration. -/
lemma rolloutLoop_rewards_length (run : Nat → Nat → ℚ) (s : Nat) :
    ∀ n, (rolloutLoop run s n).1.length = n := by
  intro n
  induction n with
  | zero => simp [rolloutLoop]
  | succ k ih => simp [rolloutLoop, ih]

/- Claim theorems. -/

/-- Claim C1: every call to `AngularMomentumTask.update` (via `_update`) sets
the task matrix `A` to the first 3 rows of the centroidal momentum matrix
freshly fetched from the model interface on that call — the result is the same
for every prior task state, cached `A` included, so no earlier value is ever
reused — and sets `b` to the currently stored desired angular momentum. -/
theorem C1_update_refetches_cmm (model : ModelInterface) (t : AngularMomentumTask) :
    (AngularMomentumTask.update model t).A
        = model.get_centroidal_momentum_matrix.take 3 ∧
    (AngularMomentumTask.update model t).b = t.des_k :=
  ⟨rfl, rfl⟩

/-- Claim C2: for every valid 3-vector `v`, `set_desired_references v` raises
nothing, stores `v`, and a following `get_desired_references` returns `v`
element-for-element. -/
theorem C2_set_get_roundtrip (t : AngularMomentumTask) (v : List ℚ)
    (h : v.length = 3) :
    AngularMomentumTask.set_desired_references t (PyObj.pyArray v)
        = ({ t with des_k := v }, Option.none) ∧
    (AngularMomentumTask.set_desired_references t (PyObj.pyArray v)).1.get_desired_references
        = v := by
  have hset : AngularMomentumTask.set_desired_references t (PyObj.pyArray v)
      = ({ t with des_k := v }, Option.none) := by
    simp [AngularMomentumTask.set_desired_references,
          AngularMomentumTask.set_desired_angular_momentum, h]
  exact ⟨hset, by rw [hset]; rfl⟩

/-- Witness for C2 at the concrete vector `[1, 2, 3]`. -/
theorem C2_witness :
    (AngularMomentumTask.set_desired_references
        { des_k := [0, 0, 0], A := [], b := [] }
        (PyObj.pyArray [1, 2, 3])).1.get_desired_references = [1, 2, 3] :=
  (C2_set_get_roundtrip { des_k := [0, 0, 0], A := [], b := [] } [1, 2, 3] (by decide)).2

/-- Claim C3: constructing an `AngularMomentumTask` with reference `None`
succeeds (no error), stores the zero 3-vector as desired reference, and after
the constructor's `update()` the vector `b` is the zero 3-vector; likewise,
setting the reference to `None` on any existing task stores the zero 3-vector
and raises nothing. -/
theorem C3_none_defaults_to_zero (model : ModelInterface) :
    AngularMomentumTask.init model PyObj.pyNone
        = Except.ok { des_k := [0, 0, 0],
                      A := model.get_centroidal_momentum_matrix.take 3,
                      b := [0, 0, 0] } ∧
    ∀ t : AngularMomentumTask,
      AngularMomentumTask.set_desired_references t PyObj.pyNone
          = ({ t with des_k := [0, 0, 0] }, Option.none) :=
  ⟨rfl, fun _ => rfl⟩

/-- Claim C4: setting a desired reference whose length is not 3 raises a
`ValueError` and leaves the task state — in particular the previously stored
valid reference — unchanged. -/
theorem C4_bad_length_rejected (t : AngularMomentumTask) (xs : List ℚ)
    (h : xs.length ≠ 3) :
    AngularMomentumTask.set_desired_references t (PyObj.pyArray xs)
        = (t, Option.some PyErr.valueError) := by
  simp [AngularMomentumTask.set_desired_references,
        AngularMomentumTask.set_desired_angular_momentum, h]

/-- Witness for C4: a task holding the valid reference `[1, 2, 3]` given a
length-2 vector keeps its state and gets a `ValueError`. -/
theorem C4_witness :
    AngularMomentumTask.set_desired_references
        { des_k := [1, 2, 3], A := [], b := [] } (PyObj.pyArray [4, 5])
      = ({ des_k := [1, 2, 3], A := [], b := [] }, Option.some PyErr.valueError) :=
  C4_bad_length_rejected { des_k := [1, 2, 3], A := [], b := [] } [4, 5] (by decide)

/-- Claim C5: `update()` is idempotent for a fixed model state — calling it
twice yields exactly the state (hence the `(A, b)` pair) of calling it once. -/
theorem C5_update_idempotent (model : ModelInterface) (t : AngularMomentumTask) :
    AngularMomentumTask.update model (AngularMomentumTask.update model t)
        = AngularMomentumTask.update model t :=
  rfl

/-- Claim C6 (divergence evidence): the `SelfCollisionAvoidanceConstraint`
class body defines neither `update` nor `_update` — its method list is only
`__init__` — and evaluating `update()` on a concrete `(A_ineq, b_ineq)` state
performs zero link-pair-distance queries and leaves the matrices exactly as
they were, instead of recomputing them as the claim states. -/
theorem C6_self_collision_update_is_stub :
    SelfCollisionAvoidanceConstraint.update { A_ineq := [[1]], b_ineq := [1] }
        = ({ A_ineq := [[1]], b_ineq := [1] }, []) ∧
    r"update" ∉ selfCollisionAvoidanceConstraintMethods ∧
    r"_update" ∉ selfCollisionAvoidanceConstraintMethods :=
  ⟨rfl, by decide, by decide⟩

/-- Claim C7: the `AverageReturnMetric` gamma setter clamps into `[0, 1]`:
construction with `3/2` (i.e. 1.5) stores 1, with `-1/5` (i.e. -0.2) stores 0,
and any gamma already in `[0, 1]` is stored unchanged. -/
theorem C7_gamma_clamped (num_rollouts num_steps : Nat) :
    (AverageReturnMetric.init (3 / 2) num_rollouts num_steps).gamma = 1 ∧
    (AverageReturnMetric.init (-(1 / 5)) num_rollouts num_steps).gamma = 0 ∧
    ∀ g : ℚ, 0 ≤ g → g ≤ 1 →
      (AverageReturnMetric.init g num_rollouts num_steps).gamma = g := by
  refine ⟨?_, ?_, ?_⟩
  · show AverageReturnMetric.set_gamma (3 / 2) = 1
    norm_num [AverageReturnMetric.set_gamma]
  · show AverageReturnMetric.set_gamma (-(1 / 5)) = 0
    norm_num [AverageReturnMetric.set_gamma]
  · intro g h0 h1
    show AverageReturnMetric.set_gamma g = g
    rw [AverageReturnMetric.set_gamma, if_neg (not_lt.mpr h1), if_neg (not_lt.mpr h0)]

/-- Witness for C7 at the in-range value `1/2`. -/
theorem C7_witness :
    (AverageReturnMetric.init (1 / 2) 10 100).gamma = 1 / 2 :=
  (C7_gamma_clamped 10 100).2.2 (1 / 2) (by norm_num) (by norm_num)

/-- Claim C8: one call to `_end_episode_update` on a metric with `r`
rollouts of `s` steps calls `task.run` exactly `r` times, each with
`num_steps = s` (the argument trace is `r` copies of `s`), collects exactly
`r` rewards, and appends exactly one value — the mean of those rewards — to
the returns history. -/
theorem C8_end_episode_runs_and_appends_mean (run : Nat → Nat → ℚ)
    (m : AverageReturnMetric) (h : 0 < m.num_rollouts) :
    (AverageReturnMetric.end_episode_update run m).2
        = List.replicate m.num_rollouts m.num_steps ∧
    (rolloutLoop run m.num_steps m.num_rollouts).1.length = m.num_rollouts ∧
    (AverageReturnMetric.end_episode_update run m).1.returns
        = m.returns ++ [listMean (rolloutLoop run m.num_steps m.num_rollouts).1] :=
  ⟨rolloutLoop_trace run m.num_steps m.num_rollouts,
   rolloutLoop_rewards_length run m.num_steps m.num_rollouts, rfl⟩

/-- Witness for C8 with `r = 3`, `s = 10` and the oracle returning rewards
0, 1, 2: three runs with `num_steps = 10` each, and the mean 1 appended. -/
theorem C8_witness :
    (AverageReturnMetric.end_episode_update (fun i _ => (i : ℚ))
        { gamma := 1, num_rollouts := 3, num_steps := 10, returns := [] }).2
      = [10, 10, 10] ∧
    (AverageReturnMetric.end_episode_update (fun i _ => (i : ℚ))
        { gamma := 1, num_rollouts := 3, num_steps := 10, returns := [] }).1.returns
      = [1] := by
  have h := C8_end_episode_runs_and_appends_mean (fun i _ => (i : ℚ))
      { gamma := 1, num_rollouts := 3, num_steps := 10, returns := [] } (by decide)
  refine ⟨h.1.trans (by decide), h.2.2.trans ?_⟩
  norm_num [rolloutLoop, listMean]

/-- Claim C9: the `LossMetric` wrt setter stores `'episode'` for any string
whose lower-cased form starts with `'episode'`, `'epoch'` for any whose
lower-cased form starts with `'epoch'`, and `'iteration'` for every other
string as well as for `None`. -/
theorem C9_wrt_normalized :
    LossMetric.set_wrt Option.none = wrtIteration ∧
    ∀ s : List Char,
      (wrtEpisode <+: pyLower s →
        LossMetric.set_wrt (Option.some s) = wrtEpisode) ∧
      (wrtEpoch <+: pyLower s →
        LossMetric.set_wrt (Option.some s) = wrtEpoch) ∧
      (¬ wrtEpisode <+: pyLower s → ¬ wrtEpoch <+: pyLower s →
        LossMetric.set_wrt (Option.some s) = wrtIteration) := by
  refine ⟨rfl, fun s => ⟨?_, ?_, ?_⟩⟩
  · intro h
    have h7 : (pyLower s).take 7 = wrtEpisode := by
      have ht := take_length_eq_of_pref h
      simpa [wrtEpisode] using ht
    simp [LossMetric.set_wrt, h7]
  · intro h
    have h5 : (pyLower s).take 5 = wrtEpoch := by
      have ht := take_length_eq_of_pref h
      simpa [wrtEpoch] using ht
    have hne : (pyLower s).take 7 ≠ wrtEpisode := by
      intro he
      have hp : wrtEpisode <+: pyLower s := pref_of_take_eq he
      have hcontra : wrtEpoch <+: wrtEpisode :=
        List.prefix_of_prefix_length_le h hp (by decide)
      exact absurd hcontra (by decide)
    simp [LossMetric.set_wrt, hne, h5]
  · intro h1 h2
    have hne7 : (pyLower s).take 7 ≠ wrtEpisode := fun he => h1 (pref_of_take_eq he)
    have hne5 : (pyLower s).take 5 ≠ wrtEpoch := fun he => h2 (pref_of_take_eq he)
    simp [LossMetric.set_wrt, hne7, hne5]

/-- Witness for C9: `'EPOCHS'` is stored as `'epoch'` and `'bogus'` as
`'iteration'`. -/
theorem C9_witness :
    LossMetric.set_wrt (Option.some ['E', 'P', 'O', 'C', 'H', 'S']) = wrtEpoch ∧
    LossMetric.set_wrt (Option.some ['b', 'o', 'g', 'u', 's']) = wrtIteration := by
  constructor
  · exact (C9_wrt_normalized.2 ['E', 'P', 'O', 'C', 'H', 'S']).2.1 (by decide)
  · exact (C9_wrt_normalized.2 ['b', 'o', 'g', 'u', 's']).2.2 (by decide) (by decide)

/-- Claim C10: every call to the wrapper produced by `convert_numpy` raises
`NameError` on the unbound name `np` before any conversion happens — for every
wrapped function, argument and `to_numpy` flag — so no decorated function can
ever return a value. -/
theorem C10_wrapper_always_nameerror (f : PyObj → PyObj) (x : PyObj)
    (to_numpy : Bool) :
    convert_numpy_wrapper f x to_numpy = Except.error (PyErr.nameError npName) ∧
    ∀ v : PyObj, convert_numpy_wrapper f x to_numpy ≠ Except.ok v := by
  have hres : resolveDecoratorGlobal npName = Option.none := by decide
  have hmain : convert_numpy_wrapper f x to_numpy
      = Except.error (PyErr.nameError npName) := by
    simp [convert_numpy_wrapper, hres]
  exact ⟨hmain, fun v hv => by rw [hmain] at hv; exact Except.noConfusion hv⟩
